import Mathlib

/-!
Verification of the error-log analyzer (`.github/bin/error-log-analyzer.py`).

The Python script classifies each line of a captured stderr log into one
diagnostic category, using an ordered chain of pattern rules, a per-file
finite-state machine (`State`), an inclusion scan (ripgrep) and an oracle
parser (slang).  This file is a shallow embedding of that script: every
function below is translated from the Python source, keeping the source's
names, its rule order, its regular-expression semantics (spelled out as
executable character-list scans) and its exception behaviour (`Option`,
where `none` models a raised exception that aborts the run).

External processes (slang, ripgrep, git) are modelled by passing their
captured output in as parameters, exactly at the point where the script
reads `proc.stdout` / `proc.stderr`.
-/

/-! ## Character and string scanning primitives

Python's `re.search` is modelled by `anySuffix`: a regex matches a string
iff the (deterministically analysed) pattern matches at some start
position.  Each pattern used by the script is compiled by hand to an
executable predicate; the derivation from the regex is documented at each
definition. -/

/-- The backtick character (code point 96), written via `Char.ofNat`. -/
def tickChar : Char := Char.ofNat 96

/-- Does the predicate `p` hold at some start position of the list
(i.e. on some suffix)?  This is the `re.search` existential over match
positions. -/
def anySuffix (p : List Char → Bool) : List Char → Bool
  | [] => p []
  | c :: rest => p (c :: rest) || anySuffix p rest

/-- Plain substring search: models `re.search` on a regex that is a string
literal (and `re.escape`d patterns), and Python's `in` on strings. -/
def strContains (s pat : String) : Bool :=
  anySuffix (fun l => pat.data.isPrefixOf l) s.data

/-- ASCII reading of Python's `\w` character class (letters, digits,
underscore; the log lines the script consumes are ASCII). -/
def isWordChar (c : Char) : Bool := c.isAlphanum || c == '_'

/-- The five preprocessor directive keywords excluded by the
`(?!include|define|undef|ifdef|ifndef)` lookahead in the script's
syntax-error regexes. -/
def directives : List String := ["include", "define", "undef", "ifdef", "ifndef"]

/-- Does the text at this position start with one of the excluded
directive keywords (the negative lookahead's alternatives)? -/
def startsWithDirective (l : List Char) : Bool :=
  directives.any (fun d => d.data.isPrefixOf l)

/-- One step of `(?:(?!include|define|undef|ifdef|ifndef).)+` at a
position: the group matches (with at least one character) iff a character
is present, it is not a newline (`.`), and the position does not start
with a directive keyword.  For `re.search` only the first character
matters: if it passes, the `+` is satisfied; if it fails, no amount of
backtracking makes the group match at this position. -/
def nonDirectiveChar (l : List Char) : Bool :=
  match l with
  | [] => false
  | c :: _ => c != '\n' && !startsWithDirective l

/-- The literal prefix of the script's two syntax-error regexes. -/
def tokenQuote : String := "syntax error at token \""

/-- Model of `re.search(r'syntax error at token "(?:(?!include|define|undef|ifdef|ifndef).)+', line)`:
some position carries the quoted literal followed by one non-directive,
non-newline character. -/
def searchTokenNonDirective (line : String) : Bool :=
  anySuffix
    (fun l => tokenQuote.data.isPrefixOf l &&
      nonDirectiveChar (l.drop tokenQuote.data.length))
    line.data

/-- The same literal with a backtick appended, for the second regex. -/
def tokenQuoteTick : String := "syntax error at token \"`"

/-- Model of `re.search(r'syntax error at token "`(?:(?!include|define|undef|ifdef|ifndef).)+', line)`. -/
def searchTokenTickNonDirective (line : String) : Bool :=
  anySuffix
    (fun l => tokenQuoteTick.data.isPrefixOf l &&
      nonDirectiveChar (l.drop tokenQuoteTick.data.length))
    line.data

/-- Model of `re.search(r'`(?:(?!include|define|undef|ifdef|ifndef).)+', s)`:
some backtick is followed by one non-directive, non-newline character. -/
def searchTickNonDirective (s : String) : Bool :=
  anySuffix
    (fun l =>
      match l with
      | [] => false
      | c :: rest => c == tickChar && nonDirectiveChar rest)
    s.data

/-! ### The `ivtest` file-name regex

`re.search(r'ivtest\/(\w+\/)+.*(fail|error)\w*\.\w+', line)`.  Inside it,
`\w*\.\w+` after the keyword is deterministic (word characters and `.` are
disjoint, so `\w*` must take the maximal run), and each `(\w+\/)` group is
deterministic for the same reason; only the number of groups and the
extent of `.*` are existential, which the mutual scans below enumerate. -/

/-- After `fail`/`error`: skip the maximal `\w*` run, then require a
literal `.` followed by at least one word character. -/
def afterKw (l : List Char) : Bool :=
  match l.dropWhile isWordChar with
  | '.' :: d :: _ => isWordChar d
  | _ => false

/-- Does `(fail|error)\w*\.\w+` match exactly at this position? -/
def matchKw (l : List Char) : Bool :=
  ("fail".data.isPrefixOf l && afterKw (l.drop 4)) ||
  ("error".data.isPrefixOf l && afterKw (l.drop 5))

/-- Model of `.*(fail|error)\w*\.\w+` from a position: the keyword part
matches at some position reachable without crossing a newline (Python's
`.` does not match `\n`). -/
def failErrorTail : List Char → Bool
  | [] => false
  | c :: rest => matchKw (c :: rest) || (c != '\n' && failErrorTail rest)

mutual
/-- Model of `(\w+\/)+.*(fail|error)\w*\.\w+`: at least one group of word
characters ending in `/`, then the tail; every possible group count is
tried. -/
def groupsThenTail : List Char → Bool
  | [] => false
  | c :: rest => isWordChar c && afterRun rest

/-- Consume the rest of a `\w+` run; at the closing `/` either the tail
matches or further `(\w+\/)` groups follow. -/
def afterRun : List Char → Bool
  | [] => false
  | c :: rest =>
      if isWordChar c then afterRun rest
      else if c == '/' then failErrorTail rest || groupsThenTail rest
      else false
end

/-- Model of `re.search(r'ivtest\/(\w+\/)+.*(fail|error)\w*\.\w+', line)`. -/
def searchIvtest (line : String) : Bool :=
  anySuffix
    (fun l => "ivtest/".data.isPrefixOf l && groupsThenTail (l.drop 7))
    line.data

/-! ### The slang "unimportant line" regex

`re.search(r'error:( \w*)*(unknown|undeclared)', line)`.  The language of
`( \w*)*` is: the empty string, or any string of spaces and word
characters that starts with a space.  So after a literal `error:` the
keyword must appear either immediately, or after a space followed by
spaces/word characters only. -/

/-- Does `unknown` or `undeclared` start at this position? -/
def kwUnknown (l : List Char) : Bool :=
  "unknown".data.isPrefixOf l || "undeclared".data.isPrefixOf l

/-- Scan over space/word characters looking for the keyword (the part of
`( \w*)*(unknown|undeclared)` after its leading space). -/
def spaceWordScan : List Char → Bool
  | [] => false
  | c :: rest => kwUnknown (c :: rest) || ((c == ' ' || isWordChar c) && spaceWordScan rest)

/-- Does `( \w*)*(unknown|undeclared)` match at this position? -/
def afterErrorColon (l : List Char) : Bool :=
  kwUnknown l ||
  (match l with
   | ' ' :: rest => spaceWordScan rest
   | _ => false)

/-- Model of `is_slang_line_important`: true iff
`re.search(r'error:( \w*)*(unknown|undeclared)', line)` finds no match. -/
def is_slang_line_important (line : String) : Bool :=
  !(anySuffix
      (fun l => "error:".data.isPrefixOf l && afterErrorColon (l.drop 6))
      line.data)

/-! ## Locator extraction (`PositionExtractor`)

`re.search(r":[0-9]+:[0-9]+(-[0-9]+)*:", line)` in `error_classifier`,
and `re.search(r":[0-9]+:[0-9]+:", line)` in `validate_slang`.  In both,
digit runs are maximal (the following character is `:`/`-`, never a
digit) and a `(-[0-9]+)` group can never be traded for the final `:`, so
matching at a position is deterministic; `re.search` takes the leftmost
matching position. -/

/-- Numeric value of a digit run, as Python's `int()` on the substring. -/
def digitsToNat (l : List Char) : Nat :=
  l.foldl (fun a c => a * 10 + (c.toNat - 48)) 0

/-- Parse `(-[0-9]+)*:` (the column-range groups and the closing colon),
returning the digit runs of the groups.  `fuel` only bounds the recursion
(each group consumes at least two characters, so `l.length` is enough). -/
def parseGroupsF : Nat → List Char → Option (List (List Char))
  | _, ':' :: _ => some []
  | fuel + 1, '-' :: rest =>
      match rest.takeWhile Char.isDigit with
      | [] => none
      | d =>
        match parseGroupsF fuel (rest.dropWhile Char.isDigit) with
        | some gs => some (d :: gs)
        | none => none
  | _, _ => none

/-- Parse the column-range groups with sufficient fuel. -/
def parseGroups (l : List Char) : Option (List (List Char)) :=
  parseGroupsF l.length l

/-- Try to match `:[0-9]+:[0-9]+(-[0-9]+)*:` exactly at this position;
on success return (line digits, first column digits, range-group digits). -/
def tryLoc (l : List Char) : Option (List Char × List Char × List (List Char)) :=
  match l with
  | ':' :: rest =>
      match rest.takeWhile Char.isDigit with
      | [] => none
      | d1 =>
        match rest.dropWhile Char.isDigit with
        | ':' :: rest2 =>
            match rest2.takeWhile Char.isDigit with
            | [] => none
            | d2 =>
              match parseGroups (rest2.dropWhile Char.isDigit) with
              | some gs => some (d1, d2, gs)
              | none => none
        | _ => none
  | _ => none

/-- Leftmost match of the locator regex, as raw digit runs. -/
def extractRaw : List Char → Option (List Char × List Char × List (List Char))
  | [] => none
  | c :: rest =>
      match tryLoc (c :: rest) with
      | some r => some r
      | none => extractRaw rest

/-- The position extraction of `error_classifier` (lines 170-177 of the
script): `line_number = match.split(':')[1]`,
`start_char = match.split(':')[2].split('-')[0]`,
`end_char = match.split(':')[2].split('-')[-1]`, all through `int()`.
`none` models the `TypeError` raised by `error_pos[0]` when `re.search`
returns `None`. -/
def extractPos (l : List Char) : Option (Nat × Nat × Nat) :=
  match extractRaw l with
  | none => none
  | some (d1, d2, gs) =>
      some (digitsToNat d1, digitsToNat d2, digitsToNat (gs.getLastD d2))

/-- Try to match the simpler `:[0-9]+:[0-9]+:` of `validate_slang` at
this position. -/
def tryLocSimple (l : List Char) : Option (Nat × Nat) :=
  match l with
  | ':' :: rest =>
      match rest.takeWhile Char.isDigit with
      | [] => none
      | d1 =>
        match rest.dropWhile Char.isDigit with
        | ':' :: rest2 =>
            match rest2.takeWhile Char.isDigit with
            | [] => none
            | d2 =>
              match rest2.dropWhile Char.isDigit with
              | ':' :: _ => some (digitsToNat d1, digitsToNat d2)
              | _ => none
        | _ => none
  | _ => none

/-- Leftmost `:line:col:` locator of a slang message (`validate_slang`,
lines 324-329); `none` models the `TypeError` on a locator-free message. -/
def extractPosSimple : List Char → Option (Nat × Nat)
  | [] => none
  | c :: rest =>
      match tryLocSimple (c :: rest) with
      | some r => some r
      | none => extractPosSimple rest

/-! ## Data model -/

/-- The classifier's finite-state machine (`class State(Enum)`). -/
inductive State where
  | NORMAL
  | MODULE_DEFINE
  | SLANG_VERIFIED
  | MISC_PREPROCESSOR
  | MACRO_CALL_SYNTAX
deriving DecidableEq, BEq, Repr

/-- `class ErrorContainer`: one error occurrence and its category; the
`slang_output`/`rg_output` fields cache captured external output
(`None` at construction). -/
structure ErrorContainer where
  project : String
  source_path : String
  line_number : Nat
  start_char : Nat
  end_char : Nat
  category : String
  error : String
  slang_output : Option (List String) := none
  rg_output : Option (List String) := none
deriving DecidableEq, Repr

/-- The module-level variables `project_name` and `source_path` that
`error_classifier` reads from its enclosing scope (not from its
parameters) when constructing the container. -/
structure Globals where
  project_name : String
  source_path : String
deriving DecidableEq, Repr

/-- Python's `s[-4:]`: the last four characters (the whole string when it
is shorter), used for the `.svh` suffix test. -/
def last4 (s : String) : List Char :=
  s.data.drop (s.data.length - 4)

/-- The `.svh` test `err.source_path[-4:] == '.svh'`. -/
def svhSuffix (s : String) : Bool := last4 s == ".svh".data

/-- `'\n'.join(src[max(line_number-n, 0):line_number])`: the window of up
to `n` source lines ending at (and including) the 1-based error line.
Python's clamped slice `src[max(ln-n,0):ln]` is `(src.take ln).drop (ln - n)`
with truncated subtraction. -/
def window (src : List String) (ln n : Nat) : String :=
  String.intercalate "\n" ((src.take ln).drop (ln - n))

/-- Literal searched by the `endmodule` state-reset rule. -/
def endmoduleTok : String := "syntax error at token \"endmodule\""

/-- Literal searched by the generic syntax-error rules. -/
def syntaxTok : String := "syntax error at token"

/-- The fresh container built at lines 180-187 of the script: identity
fields come from the module-level `project_name` and `source_path`
(`Globals`), position from the extracted locator, category defaults to
`undefined`. -/
def mkRecord (g : Globals) (line : String) (ln sc ec : Nat) : ErrorContainer :=
  { project := g.project_name
    source_path := g.source_path
    line_number := ln
    start_char := sc
    end_char := ec
    category := "undefined"
    error := line }

/-! ## The rule engine (`error_classifier`, lines 188-259)

The body is an ordered sequence of conditional overwrites.  It is split
here into the stages of the Python source, composed in source order. -/

/-- Rule at lines 191-194: unresolved macro. -/
def ruleUnresolvedMacro (line : String) (err : ErrorContainer) : ErrorContainer :=
  if strContains line "Error expanding macro identifier" then
    { err with category := "unresolved-macro" }
  else err

/-- Rule at lines 199-200: a prior line of this file was slang-verified. -/
def ruleSlangVerified (state : State) (err : ErrorContainer) : ErrorContainer :=
  if state == State.SLANG_VERIFIED then
    { err with category := "related-to-slang-validated-error" }
  else err

/-- The `if`/`elif` chain at lines 201-229: standalone header, backtick
token (with the 30-line module window), and the two state-derived
cascade categories.  The second `MODULE_DEFINE` branch duplicates the
first in the source and is kept for fidelity (it is unreachable). -/
def ruleChain (src : List String) (line : String) (state : State)
    (err : ErrorContainer) : ErrorContainer × State :=
  if svhSuffix err.source_path && searchTokenNonDirective line then
    ({ err with category := "standalone-header" }, state)
  else if searchTokenTickNonDirective line then
    (if strContains (window src err.line_number 30) "module" then
      ({ err with category := "macro-call-in-module-params" }, State.MODULE_DEFINE)
    else
      ({ err with category := "misc-preprocessor" }, State.MISC_PREPROCESSOR))
  else if state == State.MISC_PREPROCESSOR && strContains line syntaxTok then
    ({ err with category := "misc-preprocessor-related" }, state)
  else if state == State.MODULE_DEFINE && strContains line syntaxTok then
    ({ err with category := "caused-by-macro-call-in-module-params" }, state)
  else if state == State.MODULE_DEFINE && strContains line syntaxTok then
    ({ err with category := "caused-by-macro-call-in-module-params" }, state)
  else (err, state)

/-- Rule at lines 233-236: `endmodule` closes a `MODULE_DEFINE` region. -/
def ruleEndmodule (line : String) (state : State) : State :=
  if state == State.MODULE_DEFINE && strContains line endmoduleTok then
    State.NORMAL
  else state

/-- Rule at lines 237-240: cascade after a likely unhandled macro call. -/
def ruleMacroCallRelated (line : String) (state : State)
    (err : ErrorContainer) : ErrorContainer :=
  if state == State.MACRO_CALL_SYNTAX && strContains line syntaxTok then
    { err with category := "related-to-likely-unhandled-macro-call" }
  else err

/-- Rule at lines 244-247: `ivtest` files whose names announce failure. -/
def ruleIvtest (line project : String) (err : ErrorContainer) : ErrorContainer :=
  if strContains project "ivtest" && searchIvtest line then
    { err with category := "test-designed-to-fail" }
  else err

/-- Rule at lines 248-251: the `rsd` preprocessor failsafe sentinel. -/
def ruleRsd (line project : String) (err : ErrorContainer) : ErrorContainer :=
  if strContains project "rsd" && strContains line "\"Error!\"" then
    { err with category := "hit-preprocessor-failsafe" }
  else err

/-- Rules 1-6 of the classifier (everything before the final
likely-unhandled-macro-call rule), in source order. -/
def classifyRules16 (src : List String) (line : String) (state : State)
    (project : String) (err : ErrorContainer) : ErrorContainer × State :=
  let err := ruleUnresolvedMacro line err
  let err := ruleSlangVerified state err
  let (err, state) := ruleChain src line state err
  let state := ruleEndmodule line state
  let err := ruleMacroCallRelated line state err
  let err := ruleIvtest line project err
  let err := ruleRsd line project err
  (err, state)

/-- Rule at lines 252-258: a still-undefined generic syntax error with a
backtick-prefixed non-directive token in
`'\n'.join(src[max(line_number-2, 0):line_number])` (the window of the
preceding source line and the error line itself). -/
def applyRule7 (src : List String) (line : String)
    (es : ErrorContainer × State) : ErrorContainer × State :=
  let (err, state) := es
  if err.category == "undefined" && strContains line syntaxTok &&
      searchTickNonDirective (window src err.line_number 2) then
    ({ err with category := "likely-unhandled-macro-call" }, State.MACRO_CALL_SYNTAX)
  else (err, state)

/-- `error_classifier(src, line, state, project)`: extract the locator
(raising, i.e. `none`, when absent), build the container from the
enclosing-scope identity (`Globals`), then run the rule stages in source
order. -/
def error_classifier (g : Globals) (src : List String) (line : String)
    (state : State) (project : String) : Option (ErrorContainer × State) :=
  match extractPos line.data with
  | none => none
  | some (ln, sc, ec) =>
      some (applyRule7 src line
        (classifyRules16 src line state project (mkRecord g line ln sc ec)))

/-- The classifier's visible result: final category and final state. -/
def classifierCatSt (g : Globals) (src : List String) (line : String)
    (state : State) (project : String) : Option (String × State) :=
  (error_classifier g src line state project).map (fun es => (es.1.category, es.2))

/-! ## External process output (`get_slang_output`, `get_rg_output`)

The subprocess calls are modelled by passing the captured raw stream in;
the functions keep the script's `.split('\n')`. -/

/-- `get_slang_output`: the oracle's stderr, split on newlines.
`slang_stderr` stands for the captured `proc.stderr` of
`slang --error-limit=0 <srcpath>`. -/
def get_slang_output (slang_stderr : String → String) (srcpath : String) : List String :=
  (slang_stderr srcpath).splitOn "\n"

/-- `get_rg_output`: ripgrep's stdout, split on newlines.  `rg_stdout`
stands for the captured `proc.stdout` of
`rg 'include "<filename>' <project_root>`. -/
def get_rg_output (rg_stdout : String) : List String :=
  rg_stdout.splitOn "\n"

/-! ## The oracle verifier (`join_until_regex`, `validate_slang`) -/

/-- `join_until_regex(strings, regex)` with the regex modelled by the
match predicate `p` (the script calls it with `re.escape(srcpath)`, i.e.
literal substring search).  A non-matching line is concatenated onto the
accumulator; a matching line flushes a non-empty accumulator and starts a
new one.  The accumulator still live when the input ends is discarded, as
in the source. -/
def join_until_regex (p : String → Bool) (strings : List String) : List String :=
  (strings.foldl
    (fun (acc : List String × String) line =>
      if !(p line) then (acc.1, acc.2 ++ line)
      else if acc.2 != "" then (acc.1 ++ [acc.2], line)
      else (acc.1, line))
    ([], "")).1

/-- Distance `abs(start_char - err.start_char)` between two columns. -/
def natAbsDiff (a b : Nat) : Nat := ((a : Int) - (b : Int)).natAbs

/-- Does one joined slang message confirm a record at (line `ln`, start
column `sc`)?  Exact line match, column within 10, and the message is
important (`validate_slang`, lines 337-339). -/
def slangMatch (ln sc : Nat) (msg : String) : Bool :=
  match extractPosSimple msg.data with
  | none => false
  | some (l, c) =>
      l == ln && decide (natAbsDiff c sc ≤ 10) && is_slang_line_important msg

/-- The `for line in errors` loop of `validate_slang` (lines 321-341):
each message's own locator is extracted (`none` models the `TypeError`
when a message has no `:line:col:` locator); a confirming message sets
the category to `slang-verified-error` and the state to `SLANG_VERIFIED`. -/
def slangLoop : List String → ErrorContainer → State → Option (ErrorContainer × State)
  | [], err, st => some (err, st)
  | msg :: rest, err, st =>
      match extractPosSimple msg.data with
      | none => none
      | some (l, c) =>
          if l == err.line_number && decide (natAbsDiff c err.start_char ≤ 10) &&
              is_slang_line_important msg then
            slangLoop rest { err with category := "slang-verified-error" }
              State.SLANG_VERIFIED
          else slangLoop rest err st

/-- The logical oracle messages consulted for a record: the cached (or
freshly captured) slang output, joined into one string per line matching
the source path. -/
def slangMessages (err : ErrorContainer) (slang_stderr : String → String)
    (srcpath : String) : List String :=
  join_until_regex (fun l => strContains l srcpath)
    (err.slang_output.getD (get_slang_output slang_stderr srcpath))

/-- `validate_slang(src, line, state, project, srcpath, err)`: populate
the record's slang cache when empty, join the output into logical
messages, and run the confirmation loop.  The `src`, `line` and `project`
parameters are unused, as in the source (the loop variable shadows
`line`).  Returns the (possibly confirmed) record and state; the script
returns `err.category, state` after mutating `err` in place. -/
def validate_slang (src : List String) (line : String) (state : State)
    (project srcpath : String) (err : ErrorContainer)
    (slang_stderr : String → String) : Option (ErrorContainer × State) :=
  let out := err.slang_output.getD (get_slang_output slang_stderr srcpath)
  let err := { err with slang_output := some out }
  slangLoop (join_until_regex (fun l => strContains l srcpath) out) err state

/-! ## The per-file driver loop (lines 413-451)

For each log line: classify; when the category is still `undefined`, run
the inclusion scan (a non-empty first ripgrep line means
`standalone-header`); when it is still `undefined`, consult the oracle.
`none` propagates an uncaught exception, which aborts the run. -/

/-- One iteration of `for line in f` (lines 416-451). -/
def processLine (g : Globals) (src : List String) (project : String)
    (rg_stdout : String) (slang_stderr : String → String) (srcpath : String)
    (st : State) (line : String) : Option (ErrorContainer × State) :=
  match error_classifier g src line st project with
  | none => none
  | some (err, st1) =>
      let err :=
        if err.category == "undefined" then
          let rgo := get_rg_output rg_stdout
          let err := { err with rg_output := some rgo }
          if rgo.headD "" != "" then { err with category := "standalone-header" }
          else err
        else err
      if err.category == "undefined" then
        validate_slang src line st1 project srcpath err slang_stderr
      else some (err, st1)

/-- The whole per-file loop: state starts at `NORMAL` for each file and
threads through the lines in order; each produced record is appended
(`deepcopy` gives value semantics). -/
def runFile (g : Globals) (src : List String) (project : String)
    (rg_stdout : String) (slang_stderr : String → String) (srcpath : String) :
    List String → State → Option (List ErrorContainer)
  | [], _ => some []
  | line :: rest, st =>
      match processLine g src project rg_stdout slang_stderr srcpath st line with
      | none => none
      | some (err, st') =>
          match runFile g src project rg_stdout slang_stderr srcpath rest st' with
          | none => none
          | some errs => some (err :: errs)

/-! ## Aggregation and the module-level assertions (lines 452-513) -/

/-- `error_types[c]` for a project's records: `defaultdict(int)` counting
by category (absent categories count 0). -/
def countCat (errs : List ErrorContainer) (c : String) : Nat :=
  errs.countP (fun e => e.category == c)

/-- The categories actually present among the records (the keys of
`error_types` that carry a non-zero value; the keys materialised with
value 0 by the `print` reads do not change the sum below). -/
def categories (errs : List ErrorContainer) : List String :=
  (errs.map (fun e => e.category)).dedup

/-- `sum([error_types[i] for i in error_types.keys()])`. -/
def sumCounts (errs : List ErrorContainer) : Nat :=
  ((categories errs).map (countCat errs)).sum

/-- The five `assert` statements at lines 505-513, conjoined: the sum
check, and the four category checks exactly as written in the source --
in particular the fourth compares `misc-preprocessor-related` with
itself, not with `misc-preprocessor`. -/
def checkInvariants (errs : List ErrorContainer) : Bool :=
  (sumCounts errs == errs.length) &&
  (countCat errs "macro-call-in-module-params" == 0 ||
    decide (0 < countCat errs "macro-call-in-module-params")) &&
  (countCat errs "related-to-slang-validated-error" == 0 ||
    decide (0 < countCat errs "slang-verified-error")) &&
  (countCat errs "misc-preprocessor-related" == 0 ||
    decide (0 < countCat errs "misc-preprocessor-related")) &&
  (countCat errs "related-to-likely-unhandled-macro-call" == 0 ||
    decide (0 < countCat errs "likely-unhandled-macro-call"))

/-- Modelled from the spec: the referential-integrity check the spec
states for the derivative category, `count(misc-preprocessor-related) > 0
⇒ count(misc-preprocessor) > 0` (the script's fourth assertion was
evidently meant to test this but compares the derivative count with
itself). -/
def spec_misc_preprocessor_invariant (errs : List ErrorContainer) : Bool :=
  countCat errs "misc-preprocessor-related" == 0 ||
  decide (0 < countCat errs "misc-preprocessor")

/-- Formalisation of the two locator shapes named by claim C7
(`:LINE:COL:` and `:LINE:COL1-COL2:`), used only to state that claim's
counterexample: the script's regex also accepts locators with more than
one dash-separated column component. -/
def specSimpleLocator (s : String) : Bool :=
  anySuffix
    (fun l =>
      (tryLocSimple l).isSome ||
      (match tryLoc l with
       | some (_, _, [_]) => true
       | _ => false))
    s.data

/-- The slang output used for a record: the cached capture when present,
else a fresh capture (`err.slang_output` / `get_slang_output`). -/
def cachedOut (err : ErrorContainer) (sf : String → String) (srcpath : String) :
    List String :=
  err.slang_output.getD (get_slang_output sf srcpath)

/-- The record produced for the line `f.sv:1:1: x` processed in state
`SLANG_VERIFIED` (used to instantiate a theorem below). -/
def errW : ErrorContainer :=
  { project := "p", source_path := "f.sv", line_number := 1, start_char := 1,
    end_char := 1, category := "related-to-slang-validated-error",
    error := "f.sv:1:1: x\n" }

/-- A record at line 10, column 5, with a cached two-message slang
capture (used to instantiate a theorem below). -/
def err6 : ErrorContainer :=
  { mkRecord ⟨"p", "f.sv"⟩ "l" 10 5 5 with slang_output := some ["f.sv:10:6: error: bad", "f.sv:99:1: error: other"] }

/-! ## Helper lemmas: identity fields are never rewritten by the rules -/

theorem ruleUnresolvedMacro_project (line : String) (err : ErrorContainer) :
    (ruleUnresolvedMacro line err).project = err.project := by
  unfold ruleUnresolvedMacro; split <;> rfl

theorem ruleUnresolvedMacro_source_path (line : String) (err : ErrorContainer) :
    (ruleUnresolvedMacro line err).source_path = err.source_path := by
  unfold ruleUnresolvedMacro; split <;> rfl

theorem ruleUnresolvedMacro_line_number (line : String) (err : ErrorContainer) :
    (ruleUnresolvedMacro line err).line_number = err.line_number := by
  unfold ruleUnresolvedMacro; split <;> rfl

theorem ruleSlangVerified_project (st : State) (err : ErrorContainer) :
    (ruleSlangVerified st err).project = err.project := by
  unfold ruleSlangVerified; split <;> rfl

theorem ruleSlangVerified_source_path (st : State) (err : ErrorContainer) :
    (ruleSlangVerified st err).source_path = err.source_path := by
  unfold ruleSlangVerified; split <;> rfl

theorem ruleSlangVerified_line_number (st : State) (err : ErrorContainer) :
    (ruleSlangVerified st err).line_number = err.line_number := by
  unfold ruleSlangVerified; split <;> rfl

theorem ruleChain_project (src : List String) (line : String) (st : State)
    (err : ErrorContainer) : (ruleChain src line st err).1.project = err.project := by
  unfold ruleChain; split_ifs <;> rfl

theorem ruleChain_source_path (src : List String) (line : String) (st : State)
    (err : ErrorContainer) :
    (ruleChain src line st err).1.source_path = err.source_path := by
  unfold ruleChain; split_ifs <;> rfl

theorem ruleChain_line_number (src : List String) (line : String) (st : State)
    (err : ErrorContainer) :
    (ruleChain src line st err).1.line_number = err.line_number := by
  unfold ruleChain; split_ifs <;> rfl

theorem ruleMacroCallRelated_project (line : String) (st : State) (err : ErrorContainer) :
    (ruleMacroCallRelated line st err).project = err.project := by
  unfold ruleMacroCallRelated; split <;> rfl

theorem ruleMacroCallRelated_source_path (line : String) (st : State) (err : ErrorContainer) :
    (ruleMacroCallRelated line st err).source_path = err.source_path := by
  unfold ruleMacroCallRelated; split <;> rfl

theorem ruleMacroCallRelated_line_number (line : String) (st : State) (err : ErrorContainer) :
    (ruleMacroCallRelated line st err).line_number = err.line_number := by
  unfold ruleMacroCallRelated; split <;> rfl

theorem ruleIvtest_project (line p : String) (err : ErrorContainer) :
    (ruleIvtest line p err).project = err.project := by
  unfold ruleIvtest; split <;> rfl

theorem ruleIvtest_source_path (line p : String) (err : ErrorContainer) :
    (ruleIvtest line p err).source_path = err.source_path := by
  unfold ruleIvtest; split <;> rfl

theorem ruleIvtest_line_number (line p : String) (err : ErrorContainer) :
    (ruleIvtest line p err).line_number = err.line_number := by
  unfold ruleIvtest; split <;> rfl

theorem ruleRsd_project (line p : String) (err : ErrorContainer) :
    (ruleRsd line p err).project = err.project := by
  unfold ruleRsd; split <;> rfl

theorem ruleRsd_source_path (line p : String) (err : ErrorContainer) :
    (ruleRsd line p err).source_path = err.source_path := by
  unfold ruleRsd; split <;> rfl

theorem ruleRsd_line_number (line p : String) (err : ErrorContainer) :
    (ruleRsd line p err).line_number = err.line_number := by
  unfold ruleRsd; split <;> rfl

theorem classifyRules16_project (src : List String) (line : String) (st : State)
    (p : String) (err : ErrorContainer) :
    (classifyRules16 src line st p err).1.project = err.project := by
  unfold classifyRules16
  rcases hc : ruleChain src line st (ruleSlangVerified st (ruleUnresolvedMacro line err))
    with ⟨e2, s2⟩
  have h2 := ruleChain_project src line st (ruleSlangVerified st (ruleUnresolvedMacro line err))
  rw [hc] at h2
  simp only [hc, ruleRsd_project, ruleIvtest_project, ruleMacroCallRelated_project]
  rw [h2, ruleSlangVerified_project, ruleUnresolvedMacro_project]

theorem classifyRules16_source_path (src : List String) (line : String) (st : State)
    (p : String) (err : ErrorContainer) :
    (classifyRules16 src line st p err).1.source_path = err.source_path := by
  unfold classifyRules16
  rcases hc : ruleChain src line st (ruleSlangVerified st (ruleUnresolvedMacro line err))
    with ⟨e2, s2⟩
  have h2 := ruleChain_source_path src line st
    (ruleSlangVerified st (ruleUnresolvedMacro line err))
  rw [hc] at h2
  simp only [hc, ruleRsd_source_path, ruleIvtest_source_path,
    ruleMacroCallRelated_source_path]
  rw [h2, ruleSlangVerified_source_path, ruleUnresolvedMacro_source_path]

theorem classifyRules16_line_number (src : List String) (line : String) (st : State)
    (p : String) (err : ErrorContainer) :
    (classifyRules16 src line st p err).1.line_number = err.line_number := by
  unfold classifyRules16
  rcases hc : ruleChain src line st (ruleSlangVerified st (ruleUnresolvedMacro line err))
    with ⟨e2, s2⟩
  have h2 := ruleChain_line_number src line st
    (ruleSlangVerified st (ruleUnresolvedMacro line err))
  rw [hc] at h2
  simp only [hc, ruleRsd_line_number, ruleIvtest_line_number,
    ruleMacroCallRelated_line_number]
  rw [h2, ruleSlangVerified_line_number, ruleUnresolvedMacro_line_number]

theorem applyRule7_project (src : List String) (line : String) (es : ErrorContainer × State) :
    (applyRule7 src line es).1.project = es.1.project := by
  rcases es with ⟨e, s⟩; unfold applyRule7; dsimp only; split_ifs <;> rfl

theorem applyRule7_source_path (src : List String) (line : String)
    (es : ErrorContainer × State) :
    (applyRule7 src line es).1.source_path = es.1.source_path := by
  rcases es with ⟨e, s⟩; unfold applyRule7; dsimp only; split_ifs <;> rfl

/-- The classifier's returned identity fields are exactly the
enclosing-scope `Globals`, whenever a record is returned at all. -/
theorem classifier_identity (g : Globals) (src : List String) (line : String)
    (st : State) (p : String) :
    (error_classifier g src line st p).map (fun es => (es.1.project, es.1.source_path)) =
      (extractPos line.data).map (fun _ => (g.project_name, g.source_path)) := by
  unfold error_classifier
  rcases h : extractPos line.data with _ | ⟨ln, sc, ec⟩
  · rfl
  · simp only [Option.map]
    rw [applyRule7_project, applyRule7_source_path,
      classifyRules16_project, classifyRules16_source_path]
    rfl

/-! ## Helper lemmas: which rules can write which states -/

theorem ruleChain_state (src : List String) (line : String) (st : State)
    (err : ErrorContainer) :
    (ruleChain src line st err).2 = State.SLANG_VERIFIED → st = State.SLANG_VERIFIED := by
  unfold ruleChain; split_ifs <;> simp_all

theorem ruleEndmodule_state (line : String) (st : State) :
    ruleEndmodule line st = State.SLANG_VERIFIED → st = State.SLANG_VERIFIED := by
  unfold ruleEndmodule; split_ifs <;> simp_all

theorem classifyRules16_state (src : List String) (line : String) (st : State)
    (p : String) (err : ErrorContainer) :
    (classifyRules16 src line st p err).2 = State.SLANG_VERIFIED →
      st = State.SLANG_VERIFIED := by
  unfold classifyRules16
  rcases hc : ruleChain src line st (ruleSlangVerified st (ruleUnresolvedMacro line err))
    with ⟨e2, s2⟩
  simp only [hc]
  intro h
  have h2 := ruleChain_state src line st (ruleSlangVerified st (ruleUnresolvedMacro line err))
  rw [hc] at h2
  exact h2 (ruleEndmodule_state line s2 h)

theorem applyRule7_state (src : List String) (line : String) (es : ErrorContainer × State) :
    (applyRule7 src line es).2 = State.SLANG_VERIFIED → es.2 = State.SLANG_VERIFIED := by
  rcases es with ⟨e, s⟩; unfold applyRule7; dsimp only; split_ifs <;> simp_all

/-- The confirmation loop only ever keeps the record and state it was
given, or confirms: any other outcome is impossible. -/
theorem slangLoop_inv (msgs : List String) (err : ErrorContainer) (st : State)
    (err' : ErrorContainer) (st' : State)
    (h : slangLoop msgs err st = some (err', st')) :
    (st' = st ∧ err' = err) ∨
      (st' = State.SLANG_VERIFIED ∧ err'.category = "slang-verified-error") := by
  induction msgs generalizing err st with
  | nil =>
      unfold slangLoop at h
      injection h with h
      injection h with h1 h2
      exact Or.inl ⟨h2.symm, h1.symm⟩
  | cons msg rest ih =>
      unfold slangLoop at h
      rcases hp : extractPosSimple msg.data with _ | ⟨l, c⟩ <;> rw [hp] at h <;>
        dsimp only at h
      · exact absurd h (by simp)
      · by_cases hcond : (l == err.line_number &&
            decide (natAbsDiff c err.start_char ≤ 10) &&
            is_slang_line_important msg) = true
        · rw [if_pos hcond] at h
          rcases ih _ _ h with ⟨h1, h2⟩ | h1
          · exact Or.inr ⟨h1, by rw [h2]⟩
          · exact Or.inr h1
        · rw [if_neg hcond] at h
          exact ih _ _ h

/-! ## Claim C9 -/

/-- C9: the rule engine never introduces the `SLANG_VERIFIED` state: if
`error_classifier` returns state `SLANG_VERIFIED` then the state passed
in was already `SLANG_VERIFIED`; and the oracle verifier returns
`SLANG_VERIFIED` from another state only upon confirming the record
(category `slang-verified-error`). -/
theorem classifier_never_introduces_slang_verified :
    (∀ (g : Globals) (src : List String) (line : String) (st : State) (p : String)
        (err : ErrorContainer) (st' : State),
      error_classifier g src line st p = some (err, st') →
      st' = State.SLANG_VERIFIED → st = State.SLANG_VERIFIED) ∧
    (∀ (src : List String) (line : String) (st : State) (p sp : String)
        (err : ErrorContainer) (sf : String → String)
        (err' : ErrorContainer) (st' : State),
      validate_slang src line st p sp err sf = some (err', st') →
      st' = State.SLANG_VERIFIED →
      st = State.SLANG_VERIFIED ∨ err'.category = "slang-verified-error") := by
  constructor
  · intro g src line st p err st' h hsv
    unfold error_classifier at h
    rcases hp : extractPos line.data with _ | ⟨ln, sc, ec⟩ <;> rw [hp] at h
    · exact absurd h (by simp)
    · injection h with h
      have h2 : (applyRule7 src line
          (classifyRules16 src line st p (mkRecord g line ln sc ec))).2 =
          State.SLANG_VERIFIED := by rw [h]; exact hsv
      exact classifyRules16_state src line st p _ (applyRule7_state src line _ h2)
  · intro src line st p sp err sf err' st' h hsv
    unfold validate_slang at h
    rcases slangLoop_inv _ _ _ _ _ h with ⟨h1, _⟩ | ⟨_, h2⟩
    · exact Or.inl (by rw [← h1, hsv])
    · exact Or.inr h2

/-- Concrete instantiation of the C9 theorem: a line processed in state
`SLANG_VERIFIED` comes back in state `SLANG_VERIFIED`. -/
theorem classifier_never_introduces_slang_verified_witness :
    error_classifier ⟨"p", "f.sv"⟩ [] "f.sv:1:1: x\n" State.SLANG_VERIFIED "p" =
      some (errW, State.SLANG_VERIFIED) ∧
    State.SLANG_VERIFIED = State.SLANG_VERIFIED :=
  ⟨by decide,
   classifier_never_introduces_slang_verified.1 ⟨"p", "f.sv"⟩ [] "f.sv:1:1: x\n"
     State.SLANG_VERIFIED "p" errW State.SLANG_VERIFIED (by decide) rfl⟩

/-! ## Claim C10 -/

/-- C10: the returned record's identity fields do not depend on the
classifier's `project` parameter: two calls differing only in `project`
(with the module-level `Globals` fixed) yield identical `project` and
`source_path` fields, which are taken from the enclosing scope. -/
theorem classifier_identity_independent_of_project (g : Globals) (src : List String)
    (line : String) (st : State) (p₁ p₂ : String) :
    (error_classifier g src line st p₁).map (fun es => (es.1.project, es.1.source_path)) =
    (error_classifier g src line st p₂).map (fun es => (es.1.project, es.1.source_path)) := by
  rw [classifier_identity, classifier_identity]

/-! ## Claim C8 -/

/-- C8: for every collection of records, the sum of the per-category
counts over the categories present equals the total number of records
(each record carries exactly one category), so the first aggregation-time
assertion always holds. -/
theorem sum_of_category_counts_equals_total (errs : List ErrorContainer) :
    sumCounts errs = errs.length ∧ (sumCounts errs == errs.length) = true := by
  have h : sumCounts errs = errs.length := by
    unfold sumCounts categories countCat
    have hcount : ∀ c : String, errs.countP (fun e => e.category == c) =
        (errs.map (fun e => e.category)).count c := by
      intro c
      rw [List.count_eq_countP, List.countP_map]
      rfl
    calc ((errs.map (fun e => e.category)).dedup.map
            (fun c => errs.countP (fun e => e.category == c))).sum
        = ((errs.map (fun e => e.category)).dedup.map
            (fun c => (errs.map (fun e => e.category)).count c)).sum := by
          simp only [hcount]
      _ = (errs.map (fun e => e.category)).length :=
          List.sum_map_count_dedup_eq_length _
      _ = errs.length := List.length_map _ _
  exact ⟨h, by rw [h]; exact beq_self_eq_true _⟩

/-! ## Claim C1 -/

/-- C1: the fourth aggregation assertion is vacuous.  A two-line `ivtest`
log in which the backtick-token line is renamed `test-designed-to-fail`
by the project rule (after it has already moved the state to
`MISC_PREPROCESSOR`) yields one `misc-preprocessor-related` record and
zero `misc-preprocessor` records — the referential-integrity condition
the spec demands is violated — yet `checkInvariants` (the assertions of
lines 505-513, whose fourth conjunct compares
`misc-preprocessor-related` with itself) still passes, while the
spec-intended check fails. -/
theorem misc_preprocessor_assertion_vacuous :
    (runFile ⟨"ivtest", "a.sv"⟩ ["x\n", "y\n"] "ivtest" "" (fun _ => "") "sp"
        ["ivtest/dir/foo_fail.v:1:1: syntax error at token \"`FOO\"\n",
         "ivtest/dir/foo.v:2:1: syntax error at token \"x\"\n"] State.NORMAL).map
      (fun recs =>
        (countCat recs "misc-preprocessor-related", countCat recs "misc-preprocessor",
         checkInvariants recs, spec_misc_preprocessor_invariant recs)) =
      some (1, 0, true, false) := by
  decide

/-! ## Claim C2 -/

/-- C2: `join_until_regex` drops the logical message that is still being
accumulated when the input ends.  With one matching diagnostic line and
its continuation, the output is empty instead of the single joined
message the spec requires. -/
theorem join_until_regex_drops_last_message :
    strContains "a.sv:1:1: err" "a.sv" = true ∧
    join_until_regex (fun l => strContains l "a.sv") ["a.sv:1:1: err", " note"] = [] := by
  decide

/-! ## Claim C7 -/

/-- A line without any locator makes `error_classifier` raise (model:
`none`). -/
theorem processLine_none (g : Globals) (src : List String) (project rg : String)
    (sf : String → String) (sp : String) (st : State) (line : String)
    (hno : extractPos line.data = none) :
    processLine g src project rg sf sp st line = none := by
  unfold processLine error_classifier
  rw [hno]

/-- The uncaught exception propagates: a file containing a locator-free
line produces no record list at all. -/
theorem runFile_none_of_mem (g : Globals) (src : List String) (project rg : String)
    (sf : String → String) (sp : String) :
    ∀ (lines : List String) (st : State) (line : String),
      line ∈ lines → extractPos line.data = none →
      runFile g src project rg sf sp lines st = none := by
  intro lines
  induction lines with
  | nil => intro st line h _; cases h
  | cons a as ih =>
      intro st line hmem hno
      rcases List.mem_cons.mp hmem with rfl | hmem'
      · unfold runFile
        rw [processLine_none g src project rg sf sp st line hno]
      · unfold runFile
        rcases h : processLine g src project rg sf sp st a with _ | ⟨e, s'⟩
        · rfl
        · dsimp only
          rw [ih s' line hmem' hno]

/-- C7 (amended): a log line with no `:LINE:COL(-COL)*:` locator at all
(the script's regex, which also accepts more than one dash-separated
column component) makes the classifier raise instead of building a
record, and the uncaught exception is a hard stop: the whole file's run
yields nothing.  When the matched locator has no column range, the
extracted end column equals the start column. -/
theorem missing_locator_is_fatal (g : Globals) (src : List String) (project rg : String)
    (sf : String → String) (sp : String) (lines : List String) (st : State)
    (line : String) (hmem : line ∈ lines) (hno : extractPos line.data = none) :
    runFile g src project rg sf sp lines st = none ∧
    (∀ l d1 d2, extractRaw l = some (d1, d2, []) →
      extractPos l = some (digitsToNat d1, digitsToNat d2, digitsToNat d2)) := by
  refine ⟨runFile_none_of_mem g src project rg sf sp lines st line hmem hno, ?_⟩
  intro l d1 d2 h
  unfold extractPos
  rw [h]
  rfl

/-- Concrete instantiation of the C7 theorem on a locator-free line. -/
theorem missing_locator_is_fatal_witness :
    runFile ⟨"p", "f.sv"⟩ [] "p" "" (fun _ => "") "s" ["nope\n"] State.NORMAL = none :=
  (missing_locator_is_fatal ⟨"p", "f.sv"⟩ [] "p" "" (fun _ => "") "s" ["nope\n"]
    State.NORMAL "nope\n" (by decide) (by decide)).1

/-- C7 counterexample: a line whose only locator is `:1:2-3-4:` contains
neither of the two locator shapes named by the claim, yet the classifier
does not fail — it builds a record (so the claim's "fails on every line
without those substrings" is too strong). -/
theorem multi_range_locator_builds_record :
    specSimpleLocator "x:1:2-3-4: boom\n" = false ∧
    (error_classifier ⟨"p", "f.sv"⟩ [] "x:1:2-3-4: boom\n" State.NORMAL "p").isSome
      = true := by
  decide

/-! ## Claim C6 -/

/-- Characterisation of the confirmation loop when every joined message
carries a locator: it confirms exactly when some message matches, and
otherwise returns the record and state unchanged. -/
theorem slangLoop_spec (msgs : List String) :
    ∀ (err : ErrorContainer) (st : State),
      (∀ msg ∈ msgs, (extractPosSimple msg.data).isSome = true) →
      slangLoop msgs err st =
        (if msgs.any (slangMatch err.line_number err.start_char)
         then some ({ err with category := "slang-verified-error" }, State.SLANG_VERIFIED)
         else some (err, st)) := by
  induction msgs with
  | nil => intro err st _; rfl
  | cons msg rest ih =>
      intro err st h
      have hm := h msg (List.mem_cons_self _ _)
      rcases hp : extractPosSimple msg.data with _ | ⟨l, c⟩
      · rw [hp] at hm; exact absurd hm (by simp)
      · have hrest : ∀ m ∈ rest, (extractPosSimple m.data).isSome = true :=
          fun m hm' => h m (List.mem_cons_of_mem _ hm')
        unfold slangLoop
        rw [hp]
        dsimp only
        by_cases hcond : (l == err.line_number &&
            decide (natAbsDiff c err.start_char ≤ 10) &&
            is_slang_line_important msg) = true
        · rw [if_pos hcond, ih _ _ hrest]
          have hsm : slangMatch err.line_number err.start_char msg = true := by
            unfold slangMatch; rw [hp]; dsimp only; exact hcond
          rw [List.any_cons, hsm, Bool.true_or, if_pos rfl]
          split <;> rfl
        · rw [if_neg hcond, ih _ _ hrest]
          have hsm : slangMatch err.line_number err.start_char msg = false := by
            unfold slangMatch
            rw [hp]
            dsimp only
            cases hX : l == err.line_number &&
              decide (natAbsDiff c err.start_char ≤ 10) &&
              is_slang_line_important msg
            · rfl
            · exact absurd hX hcond
          rw [List.any_cons, hsm, Bool.false_or]

/-- C6: a still-`undefined` record handed to `validate_slang` is
confirmed (category `slang-verified-error`, state `SLANG_VERIFIED`) if
and only if some logical oracle message has a locator on exactly the
record's line, within 10 columns of its start column, and is not a
generic unknown/undeclared complaint; with no such message the category
stays `undefined` and the state is unchanged.  (Hypothesis: every joined
message carries a `:line:col:` locator, otherwise the script raises.) -/
theorem validate_slang_confirms_iff (src : List String) (line : String) (st : State)
    (project srcpath : String) (err : ErrorContainer) (sf : String → String)
    (hcat : err.category = "undefined")
    (hloc : ∀ msg ∈ slangMessages err sf srcpath,
      (extractPosSimple msg.data).isSome = true) :
    (validate_slang src line st project srcpath err sf).map
        (fun es => (es.1.category, es.2)) =
      some (if (slangMessages err sf srcpath).any
              (slangMatch err.line_number err.start_char)
            then ("slang-verified-error", State.SLANG_VERIFIED)
            else ("undefined", st)) ∧
    ((validate_slang src line st project srcpath err sf).map
        (fun es => (es.1.category, es.2)) =
        some ("slang-verified-error", State.SLANG_VERIFIED) ↔
      ∃ msg ∈ slangMessages err sf srcpath,
        slangMatch err.line_number err.start_char msg = true) := by
  have key : validate_slang src line st project srcpath err sf =
      (if (slangMessages err sf srcpath).any
            (slangMatch err.line_number err.start_char)
       then some ({ err with slang_output := some (cachedOut err sf srcpath), category := "slang-verified-error" }, State.SLANG_VERIFIED)
       else some ({ err with slang_output := some (cachedOut err sf srcpath) }, st)) := by
    show slangLoop (join_until_regex (fun l => strContains l srcpath) (cachedOut err sf srcpath)) { err with slang_output := some (cachedOut err sf srcpath) } st = _
    have hloc2 : ∀ msg ∈ join_until_regex (fun l => strContains l srcpath)
        (cachedOut err sf srcpath), (extractPosSimple msg.data).isSome = true := hloc
    rw [slangLoop_spec _ _ _ hloc2]
    rfl
  have h1 : (validate_slang src line st project srcpath err sf).map
      (fun es => (es.1.category, es.2)) =
      some (if (slangMessages err sf srcpath).any
              (slangMatch err.line_number err.start_char)
            then ("slang-verified-error", State.SLANG_VERIFIED)
            else ("undefined", st)) := by
    rw [key]
    by_cases hany : (slangMessages err sf srcpath).any
        (slangMatch err.line_number err.start_char) = true
    · rw [if_pos hany, if_pos hany]; rfl
    · rw [if_neg hany, if_neg hany]
      show some (err.category, st) = some ("undefined", st)
      rw [hcat]
  refine ⟨h1, ?_⟩
  rw [h1]
  by_cases hany : (slangMessages err sf srcpath).any
      (slangMatch err.line_number err.start_char) = true
  · rw [if_pos hany]
    constructor
    · intro _
      exact List.any_eq_true.mp hany
    · intro _
      rfl
  · rw [if_neg hany]
    constructor
    · intro h
      injection h with h
      have h2 : "undefined" = "slang-verified-error" := congrArg Prod.fst h
      exact absurd h2 (by decide)
    · intro hex
      rcases hex with ⟨msg, hmem, hsm⟩
      exact absurd (List.any_eq_true.mpr ⟨msg, hmem, hsm⟩) hany

/-! ## Helper lemmas: when a rule does not fire, and category propagation -/

theorem ruleSlangVerified_of_sv (err : ErrorContainer) :
    (ruleSlangVerified State.SLANG_VERIFIED err).category =
      "related-to-slang-validated-error" := by
  unfold ruleSlangVerified; rfl

theorem ruleChain_no_match (src : List String) (line : String) (st : State)
    (err : ErrorContainer)
    (h1 : (svhSuffix err.source_path && searchTokenNonDirective line) = false)
    (h2 : searchTokenTickNonDirective line = false)
    (h3 : (st == State.MISC_PREPROCESSOR && strContains line syntaxTok) = false)
    (h4 : (st == State.MODULE_DEFINE && strContains line syntaxTok) = false) :
    ruleChain src line st err = (err, st) := by
  unfold ruleChain
  rw [h1, h2, h3, h4]
  simp

theorem ruleChain_tick (src : List String) (line : String) (st : State)
    (err : ErrorContainer)
    (h1 : (svhSuffix err.source_path && searchTokenNonDirective line) = false)
    (h2 : searchTokenTickNonDirective line = true) :
    ruleChain src line st err =
      (if strContains (window src err.line_number 30) "module" then
        ({ err with category := "macro-call-in-module-params" }, State.MODULE_DEFINE)
      else
        ({ err with category := "misc-preprocessor" }, State.MISC_PREPROCESSOR)) := by
  unfold ruleChain
  rw [h1, h2]
  simp

theorem ruleEndmodule_skip (line : String) (st : State)
    (h : strContains line endmoduleTok = false) :
    ruleEndmodule line st = st := by
  unfold ruleEndmodule
  rw [h]
  simp

theorem ruleEndmodule_skip_state (line : String) (st : State)
    (h : (st == State.MODULE_DEFINE) = false) :
    ruleEndmodule line st = st := by
  unfold ruleEndmodule
  rw [h]
  simp

theorem ruleMacroCallRelated_skip (line : String) (st : State) (err : ErrorContainer)
    (h : (st == State.MACRO_CALL_SYNTAX) = false) :
    ruleMacroCallRelated line st err = err := by
  unfold ruleMacroCallRelated
  rw [h]
  simp

theorem ruleIvtest_skip (line p : String) (err : ErrorContainer)
    (h : strContains p "ivtest" = false) :
    ruleIvtest line p err = err := by
  unfold ruleIvtest
  rw [h]
  simp

theorem ruleRsd_skip (line p : String) (err : ErrorContainer)
    (h : strContains p "rsd" = false) :
    ruleRsd line p err = err := by
  unfold ruleRsd
  rw [h]
  simp

theorem ruleChain_cat_ne (src : List String) (line : String) (st : State)
    (err : ErrorContainer) (h : err.category ≠ "undefined") :
    (ruleChain src line st err).1.category ≠ "undefined" := by
  unfold ruleChain
  split_ifs <;> first | exact h | simp

theorem ruleMacroCallRelated_cat_ne (line : String) (st : State) (err : ErrorContainer)
    (h : err.category ≠ "undefined") :
    (ruleMacroCallRelated line st err).category ≠ "undefined" := by
  unfold ruleMacroCallRelated
  split <;> first | exact h | simp

theorem ruleIvtest_cat_ne (line p : String) (err : ErrorContainer)
    (h : err.category ≠ "undefined") :
    (ruleIvtest line p err).category ≠ "undefined" := by
  unfold ruleIvtest
  split <;> first | exact h | simp

theorem ruleRsd_cat_ne (line p : String) (err : ErrorContainer)
    (h : err.category ≠ "undefined") :
    (ruleRsd line p err).category ≠ "undefined" := by
  unfold ruleRsd
  split <;> first | exact h | simp

theorem applyRule7_of_cat_ne (src : List String) (line : String)
    (es : ErrorContainer × State) (h : es.1.category ≠ "undefined") :
    applyRule7 src line es = es := by
  rcases es with ⟨e, s⟩
  unfold applyRule7
  dsimp only
  have hb : (e.category == "undefined") = false := by
    rw [beq_eq_false_iff_ne]
    exact h
  rw [hb]
  simp

/-! ## Claim C5 -/

/-- In state `SLANG_VERIFIED` the rule stages before the final rule
always leave a non-`undefined` category (rule 2 writes
`related-to-slang-validated-error`, and every later rule either keeps
the category or writes another non-default one). -/
theorem classifyRules16_cat_ne_of_sv (src : List String) (line p : String)
    (err : ErrorContainer) :
    (classifyRules16 src line State.SLANG_VERIFIED p err).1.category ≠ "undefined" := by
  unfold classifyRules16
  rcases hc : ruleChain src line State.SLANG_VERIFIED
      (ruleSlangVerified State.SLANG_VERIFIED (ruleUnresolvedMacro line err))
    with ⟨e2, s2⟩
  simp only [hc]
  apply ruleRsd_cat_ne
  apply ruleIvtest_cat_ne
  apply ruleMacroCallRelated_cat_ne
  have hne : (ruleSlangVerified State.SLANG_VERIFIED
      (ruleUnresolvedMacro line err)).category ≠ "undefined" := by
    rw [ruleSlangVerified_of_sv]
    simp
  have h2 := ruleChain_cat_ne src line State.SLANG_VERIFIED _ hne
  rw [hc] at h2
  exact h2

/-- A record returned by the classifier from state `SLANG_VERIFIED`
never has category `undefined`. -/
theorem classifier_cat_ne_of_sv (g : Globals) (src : List String) (line p : String)
    (e : ErrorContainer) (s : State)
    (h : error_classifier g src line State.SLANG_VERIFIED p = some (e, s)) :
    e.category ≠ "undefined" := by
  unfold error_classifier at h
  rcases hp : extractPos line.data with _ | ⟨ln, sc, ec⟩ <;> rw [hp] at h
  · exact absurd h (by simp)
  · injection h with h
    have hne := classifyRules16_cat_ne_of_sv src line p (mkRecord g line ln sc ec)
    rw [applyRule7_of_cat_ne src line _ hne] at h
    have he := congrArg Prod.fst h
    dsimp only at he
    rw [← he]
    exact hne

/-- C5 (amended): a line processed in state `SLANG_VERIFIED` always gets
a non-`undefined` category, so the driver never consults the inclusion
scan or the oracle for it (its result does not depend on their output);
rule 2 sets `related-to-slang-validated-error` (overwriting rule 1), and
that is the final category whenever no later overwriting rule
(standalone-header, backtick-token, `ivtest`, `rsd`) fires on the same
line; the state stays `SLANG_VERIFIED`. -/
theorem slang_verified_state_inherits (g : Globals) (src : List String)
    (line p : String) (ln sc ec : Nat)
    (hpos : extractPos line.data = some (ln, sc, ec)) :
    (∀ cs, classifierCatSt g src line State.SLANG_VERIFIED p = some cs →
      cs.1 ≠ "undefined") ∧
    ((svhSuffix g.source_path && searchTokenNonDirective line) = false →
      searchTokenTickNonDirective line = false →
      strContains p "ivtest" = false →
      strContains p "rsd" = false →
      classifierCatSt g src line State.SLANG_VERIFIED p =
        some ("related-to-slang-validated-error", State.SLANG_VERIFIED)) ∧
    (∀ rg sf sp, processLine g src p rg sf sp State.SLANG_VERIFIED line =
      error_classifier g src line State.SLANG_VERIFIED p) := by
  refine ⟨?_, ?_, ?_⟩
  · intro cs hcs
    unfold classifierCatSt at hcs
    rcases he : error_classifier g src line State.SLANG_VERIFIED p with _ | ⟨e, s⟩ <;>
      rw [he] at hcs
    · exact absurd hcs (by simp)
    · have := classifier_cat_ne_of_sv g src line p e s he
      injection hcs with hcs
      rw [← hcs]
      exact this
  · intro h1 h2 h3 h4
    unfold classifierCatSt error_classifier
    rw [hpos]
    dsimp only
    unfold classifyRules16
    have hsp : (ruleSlangVerified State.SLANG_VERIFIED
        (ruleUnresolvedMacro line (mkRecord g line ln sc ec))).source_path =
        g.source_path := by
      rw [ruleSlangVerified_source_path, ruleUnresolvedMacro_source_path]
      rfl
    have hchain := ruleChain_no_match src line State.SLANG_VERIFIED
      (ruleSlangVerified State.SLANG_VERIFIED
        (ruleUnresolvedMacro line (mkRecord g line ln sc ec)))
      (by rw [hsp]; exact h1) h2
      (by rw [show (State.SLANG_VERIFIED == State.MISC_PREPROCESSOR) = false from rfl,
        Bool.false_and])
      (by rw [show (State.SLANG_VERIFIED == State.MODULE_DEFINE) = false from rfl,
        Bool.false_and])
    simp only [hchain]
    rw [ruleEndmodule_skip_state line State.SLANG_VERIFIED rfl,
      ruleMacroCallRelated_skip line State.SLANG_VERIFIED _ rfl,
      ruleIvtest_skip line p _ h3, ruleRsd_skip line p _ h4]
    have hne : (ruleSlangVerified State.SLANG_VERIFIED
        (ruleUnresolvedMacro line (mkRecord g line ln sc ec))).category ≠
        "undefined" := by
      rw [ruleSlangVerified_of_sv]
      simp
    rw [applyRule7_of_cat_ne src line _ hne]
    simp only [Option.map]
    rw [ruleSlangVerified_of_sv]
  · intro rg sf sp
    unfold processLine
    rcases he : error_classifier g src line State.SLANG_VERIFIED p with _ | ⟨e, s⟩
    · unfold error_classifier at he
      rw [hpos] at he
      all_goals exact absurd he (by simp)
    · have hne := classifier_cat_ne_of_sv g src line p e s he
      have hb : (e.category == "undefined") = false := by
        rw [beq_eq_false_iff_ne]
        exact hne
      simp [hb]

/-- C5 counterexample: in state `SLANG_VERIFIED`, a syntax-error line of
a `.svh` file ends with category `standalone-header` — the later
header rule overwrites the `related-to-slang-validated-error` that the
claim says is the resulting category regardless of line content and
suffix. -/
theorem slang_verified_overwritten_by_header :
    classifierCatSt ⟨"proj", "a.svh"⟩ [] "a.svh:1:1: syntax error at token \"x\"\n"
        State.SLANG_VERIFIED "proj" =
      some ("standalone-header", State.SLANG_VERIFIED) ∧
    ("standalone-header" : String) ≠ "related-to-slang-validated-error" := by
  decide

/-- Concrete instantiation of the C5 theorem on a line no later rule
overwrites. -/
theorem slang_verified_state_inherits_witness :
    classifierCatSt ⟨"proj", "a.sv"⟩ [] "a.sv:3:4: foo bar\n"
        State.SLANG_VERIFIED "proj" =
      some ("related-to-slang-validated-error", State.SLANG_VERIFIED) :=
  (slang_verified_state_inherits ⟨"proj", "a.sv"⟩ [] "a.sv:3:4: foo bar\n" "proj"
    3 4 4 (by decide)).2.1 (by decide) (by decide) (by decide) (by decide)

/-! ## Claim C4 -/

/-- C4 (amended): a syntax error on a backtick-prefixed non-directive
token in a non-`.svh` file gets `macro-call-in-module-params` with state
`MODULE_DEFINE` if the substring `module` occurs in the window of up to
30 source lines ending at (and including) the error line, and otherwise
`misc-preprocessor` with state `MISC_PREPROCESSOR` (provided no
project-specific rule and no `endmodule` reset fires on the same
line). -/
theorem backtick_token_module_window (g : Globals) (src : List String)
    (line p : String) (st : State) (ln sc ec : Nat)
    (hpos : extractPos line.data = some (ln, sc, ec))
    (hsvh : svhSuffix g.source_path = false)
    (htick : searchTokenTickNonDirective line = true)
    (hiv : strContains p "ivtest" = false)
    (hrsd : strContains p "rsd" = false)
    (hend : strContains line endmoduleTok = false) :
    classifierCatSt g src line st p =
      some (if strContains (window src ln 30) "module" then
        ("macro-call-in-module-params", State.MODULE_DEFINE)
      else ("misc-preprocessor", State.MISC_PREPROCESSOR)) := by
  unfold classifierCatSt error_classifier
  rw [hpos]
  dsimp only
  unfold classifyRules16
  have hsp : (ruleSlangVerified st
      (ruleUnresolvedMacro line (mkRecord g line ln sc ec))).source_path =
      g.source_path := by
    rw [ruleSlangVerified_source_path, ruleUnresolvedMacro_source_path]
    rfl
  have hln : (ruleSlangVerified st
      (ruleUnresolvedMacro line (mkRecord g line ln sc ec))).line_number = ln := by
    rw [ruleSlangVerified_line_number, ruleUnresolvedMacro_line_number]
    rfl
  have hchain := ruleChain_tick src line st
    (ruleSlangVerified st (ruleUnresolvedMacro line (mkRecord g line ln sc ec)))
    (by rw [hsp, hsvh]; exact Bool.false_and _) htick
  rw [hln] at hchain
  simp only [hchain]
  by_cases hmod : strContains (window src ln 30) "module" = true
  · rw [if_pos hmod, if_pos hmod]
    dsimp only
    rw [ruleEndmodule_skip line State.MODULE_DEFINE hend,
      ruleMacroCallRelated_skip line State.MODULE_DEFINE _ rfl,
      ruleIvtest_skip line p _ hiv, ruleRsd_skip line p _ hrsd,
      applyRule7_of_cat_ne src line _ (by simp)]
    rfl
  · rw [if_neg hmod, if_neg hmod]
    dsimp only
    rw [ruleEndmodule_skip_state line State.MISC_PREPROCESSOR rfl,
      ruleMacroCallRelated_skip line State.MISC_PREPROCESSOR _ rfl,
      ruleIvtest_skip line p _ hiv, ruleRsd_skip line p _ hrsd,
      applyRule7_of_cat_ne src line _ (by simp)]
    rfl

/-- C4 counterexample: the `module` keyword occurs only on the error
line itself (line 2); no module keyword is in the 30 lines preceding the
error, yet the code assigns `macro-call-in-module-params` and
`MODULE_DEFINE` where the claim requires `misc-preprocessor`. -/
theorem module_window_includes_error_line :
    strContains "x\n" "module" = false ∧
    classifierCatSt ⟨"p", "f.sv"⟩ ["x\n", "module m; `FOO\n"]
        "f.sv:2:3: syntax error at token \"`FOO\"\n" State.NORMAL "p" =
      some ("macro-call-in-module-params", State.MODULE_DEFINE) := by
  decide

/-- Concrete instantiation of the C4 theorem with `module` on the line
preceding the error. -/
theorem backtick_token_module_window_witness :
    classifierCatSt ⟨"p", "f.sv"⟩ ["module m;\n", "x\n"]
        "f.sv:2:1: syntax error at token \"`FOO\"\n" State.NORMAL "p" =
      some ("macro-call-in-module-params", State.MODULE_DEFINE) := by
  have h := backtick_token_module_window ⟨"p", "f.sv"⟩ ["module m;\n", "x\n"]
    "f.sv:2:1: syntax error at token \"`FOO\"\n" "p" State.NORMAL 2 1 1
    (by decide) (by decide) (by decide) (by decide) (by decide) (by decide)
  rw [h]
  decide

/-! ## Claim C3 -/

/-- C3 (amended): for a record still `undefined` after rules 1-6 on a
generic syntax-error line, the classifier assigns
`likely-unhandled-macro-call` and state `MACRO_CALL_SYNTAX` if and only
if a backtick-prefixed non-directive token appears in the window
`src[max(line-2,0):line]` — that is, in the source line preceding the
error or in the error line itself. -/
theorem undefined_syntax_error_macro_window (g : Globals) (src : List String)
    (line p : String) (st : State) (ln sc ec : Nat)
    (hpos : extractPos line.data = some (ln, sc, ec))
    (hundef : (classifyRules16 src line st p
      (mkRecord g line ln sc ec)).1.category = "undefined")
    (hsyn : strContains line syntaxTok = true) :
    (classifierCatSt g src line st p =
        some ("likely-unhandled-macro-call", State.MACRO_CALL_SYNTAX)) ↔
      searchTickNonDirective (window src ln 2) = true := by
  unfold classifierCatSt error_classifier
  rw [hpos]
  dsimp only
  rcases hX : classifyRules16 src line st p (mkRecord g line ln sc ec) with ⟨e1, s1⟩
  rw [hX] at hundef
  dsimp only at hundef
  have hln : e1.line_number = ln := by
    have h := classifyRules16_line_number src line st p (mkRecord g line ln sc ec)
    rw [hX] at h
    dsimp only at h
    rw [h]
    rfl
  unfold applyRule7
  dsimp only
  have hb : (e1.category == "undefined") = true := by
    rw [beq_iff_eq]
    exact hundef
  rw [hb, hsyn, hln]
  simp only [Bool.true_and]
  by_cases hw : searchTickNonDirective (window src ln 2) = true
  · rw [if_pos hw]
    simp only [Option.map]
    constructor
    · intro _
      exact hw
    · intro _
      trivial
  · rw [if_neg hw]
    simp only [Option.map]
    constructor
    · intro h
      injection h with h
      have h2 := congrArg Prod.fst h
      dsimp only at h2
      rw [hundef] at h2
      exact absurd h2 (by decide)
    · intro h
      exact absurd h hw

/-- C3 counterexample: the only backtick-prefixed token is on the error
line itself (line 5); the two source lines preceding the error contain
no backtick at all, yet the classifier assigns
`likely-unhandled-macro-call` and `MACRO_CALL_SYNTAX`. -/
theorem likely_macro_window_includes_error_line :
    strContains (String.intercalate "\n" ["a\n", "a\n"]) "`" = false ∧
    classifierCatSt ⟨"proj", "foo.sv"⟩ ["a\n", "a\n", "a\n", "a\n", "`FOO\n"]
        "foo.sv:5:1: syntax error at token \"x\"\n" State.NORMAL "proj" =
      some ("likely-unhandled-macro-call", State.MACRO_CALL_SYNTAX) := by
  decide

/-- Concrete instantiation of the C3 theorem with the backtick on the
line preceding the error. -/
theorem undefined_syntax_error_macro_window_witness :
    classifierCatSt ⟨"proj", "foo.sv"⟩ ["`FOO\n", "b\n"]
        "foo.sv:2:1: syntax error at token \"x\"\n" State.NORMAL "proj" =
      some ("likely-unhandled-macro-call", State.MACRO_CALL_SYNTAX) :=
  (undefined_syntax_error_macro_window ⟨"proj", "foo.sv"⟩ ["`FOO\n", "b\n"]
    "foo.sv:2:1: syntax error at token \"x\"\n" "proj" State.NORMAL 2 1 1
    (by decide) (by decide) (by decide)).mpr (by decide)

/-- Concrete instantiation of the C6 theorem: the joined oracle message
`f.sv:10:6: error: bad` confirms the record at line 10, column 5. -/
theorem validate_slang_confirms_iff_witness :
    (validate_slang [] "l" State.NORMAL "p" "f.sv" err6 (fun _ => "")).map
        (fun es => (es.1.category, es.2)) =
      some ("slang-verified-error", State.SLANG_VERIFIED) := by
  have h := (validate_slang_confirms_iff [] "l" State.NORMAL "p" "f.sv" err6
    (fun _ => "") rfl (by decide)).1
  rw [h]
  decide
